import Mathlib

-- Verification of the runtime semantics of the some-types library
-- (src/Maybe.ts, src/Result.ts, src/AsyncData.ts and the Result namespace
-- revision in src/unnamed/part_015, src/unnamed/part_027).
--
-- The library represents its three variant families over one untyped value
-- universe: a Just/Ok/Success value is the runtime value itself, Nothing is
-- the undefined value, NotAsked and Loading are two unique symbol sentinels,
-- and Err/Failure values are objects inheriting from the built-in Error
-- class.  The embedding therefore works over a single inductive type of
-- runtime values, and every conversion and combinator below is a direct
-- translation of the corresponding source function.

/--
Universe of JavaScript runtime values, as far as the library can observe
them.  The error constructor models objects inheriting from the built-in
Error class: id models reference identity of a particular allocation, name
and message are the standard Error fields.  The errorValue constructor
models the ErrorValue and DataError subclasses, which add a payload field to
an Error object.  The notAskedSym and loadingSym constructors are the two
unique symbols created once at module load by Symbol with descriptions
NotAsked and Loading; identity comparison against them is modelled by
matching on the constructor.  Numeric payloads are modelled as integers; no
claim performs numeric computation.
-/
inductive JSValue : Type where
  | undef : JSValue
  | null : JSValue
  | boolean (b : Bool) : JSValue
  | number (n : Int) : JSValue
  | string (s : String) : JSValue
  | notAskedSym : JSValue
  | loadingSym : JSValue
  | error (id : Nat) (name : String) (message : String) : JSValue
  | errorValue (id : Nat) (name : String) (message : String) (value : JSValue) : JSValue
  | array (elems : List JSValue) : JSValue
  | object (id : Nat) : JSValue

/--
Runtime check x instanceof Error: true exactly for objects inheriting from
the built-in Error class, which in this universe are the error and
errorValue constructors.
-/
def instanceofError : JSValue → Bool
  | .error _ _ _ => true
  | .errorValue _ _ _ _ => true
  | _ => false

/--
Loose equality against null (the JavaScript test x == null), which holds
exactly for null and undefined.
-/
def jsLooseEqNull : JSValue → Bool
  | .null => true
  | .undef => true
  | _ => false

mutual

/--
ECMA-262 ToString as applied by template literal interpolation.  It returns
none when the abstract operation throws a TypeError, which happens exactly
when the value is a symbol (or an array whose recursive stringification hits
a symbol).  Error objects stringify as name or name, colon, message;
booleans, numbers, null and undefined as their literal spellings; arrays as
their elements joined by commas with null and undefined elements replaced by
the empty string (Array.prototype.join); plain objects as [object Object].
-/
def toStringJS : JSValue → Option String
  | .undef => some ("undefined")
  | .null => some ("null")
  | .boolean true => some ("true")
  | .boolean false => some ("false")
  | .number n => some (toString n)
  | .string s => some s
  | .notAskedSym => none
  | .loadingSym => none
  | .error _ name msg => some (if msg = "" then name else name ++ ": " ++ msg)
  | .errorValue _ name msg _ => some (if msg = "" then name else name ++ ": " ++ msg)
  | .array xs => (toStringElems xs).map (fun ss => String.intercalate (",") ss)
  | .object _ => some ("[object Object]")

/--
Stringification of the element list of an array, per Array.prototype.join:
undefined and null become the empty string, other elements go through
ToString; a symbol element makes the whole operation throw (none).
-/
def toStringElems : List JSValue → Option (List String)
  | [] => some []
  | x :: xs => do
    let s ← (match x with
      | .undef => some ""
      | .null => some ""
      | v => toStringJS v)
    let ss ← toStringElems xs
    pure (s :: ss)

end

/--
TypeError thrown by ToString on a symbol value (ECMA-262: template literal
interpolation of a symbol throws; the message is the one V8 produces).
-/
def symbolToStringTypeError : JSValue := JSValue.error 0 ("TypeError") ("Cannot convert a Symbol value to a string")

namespace Maybe

/--
Constant Nothing from src/Maybe.ts: the Nothing variant of a Maybe is the
undefined value.
-/
def Nothing : JSValue := JSValue.undef

/--
Typeguard isJust from src/Maybe.ts: x is a Just when x is not strictly equal
to undefined.
-/
def isJust (x : JSValue) : Bool :=
  match x with
  | JSValue.undef => false
  | _ => true

/--
Typeguard isNothing from src/Maybe.ts: x is a Nothing when x is strictly
equal to undefined.
-/
def isNothing (x : JSValue) : Bool :=
  match x with
  | JSValue.undef => true
  | _ => false

/--
Conversion fromNullable from src/Maybe.ts lines 150-152 and 421-422: if x is
loosely equal to null (that is, x is null or undefined) return Nothing,
otherwise return x itself.
-/
def fromNullable (x : JSValue) : JSValue :=
  if jsLooseEqNull x then Nothing else x

/--
Conversion toNullable from src/Maybe.ts lines 176-178 and 437: if x is a
Just return x itself, otherwise return null.
-/
def toNullable (x : JSValue) : JSValue :=
  if isJust x then x else JSValue.null

/--
Operation map from src/Maybe.ts lines 204-210 (second revision lines
462-467 has the same body with flipped parameter order): if a is a Just,
invoke fn on it and return the result; otherwise return Nothing.  The
user-supplied callback fn may have arbitrary effects, so the embedding is
generic over a monad m; the source control flow is exactly the conditional
below, and fn runs only in the branch where it textually occurs.
-/
def map {m : Type → Type} [Monad m] (fn : JSValue → m JSValue) (a : JSValue) : m JSValue :=
  if isJust a then fn a else pure Nothing

/--
Operation encasePromise from src/Maybe.ts lines 275-277: p.catch returning
Nothing.  A promise settlement is modelled by Except: ok is fulfillment and
error is rejection.  The result is the settlement of the returned promise.
-/
def encasePromise (p : Except JSValue JSValue) : Except JSValue JSValue :=
  match p with
  | Except.ok v => Except.ok v
  | Except.error _ => Except.ok Nothing

end Maybe

namespace Result

/--
Typeguard isOk from src/Result.ts lines 117-119 (also Ok.isType in the
part_016 revision): x is an Ok when x is not an instance of Error.
-/
def isOk (x : JSValue) : Bool := !(instanceofError x)

/--
Typeguard isErr from src/Result.ts lines 122-124 (also Err.isType in the
part_018 revision): x is an Err when x is an instance of Error.
-/
def isErr (x : JSValue) : Bool := instanceofError x

/--
Constructor err from src/Result.ts lines 97-99 (also Err.of in the part_018
revision): a new vanilla Error object with the given message.  Allocation
identity of newly constructed errors is modelled with id 0.
-/
def err (message : String) : JSValue := JSValue.error 0 ("Error") message

/--
Conversion toAsyncData from src/Result.ts lines 166-168 (toRemoteData in the
part_015 revision, lines 194-196): the value is returned unchanged, the
conversion is purely a type-level cast.
-/
def toAsyncData (x : JSValue) : JSValue := x

/--
Operation combine from src/Result.ts lines 242-249: find the first element
satisfying isErr and return it if present, otherwise return the array of
elements satisfying isOk.  The source compares the result of find against
undefined; since no Err value is the undefined value, that test is exactly
the some/none distinction of find.
-/
def combine (xs : List JSValue) : JSValue :=
  match xs.find? isErr with
  | some e => e
  | none => JSValue.array (xs.filter isOk)

/--
Operation consolidate from src/unnamed/part_015 lines 268-277: same body as
combine in src/Result.ts.
-/
def consolidate (xs : List JSValue) : JSValue :=
  match xs.find? isErr with
  | some e => e
  | none => JSValue.array (xs.filter isOk)

/--
Operation encase from src/unnamed/part_015 lines 287-311, describing one
invocation of the wrapped function on some argument list.  The outcome of
running the user function fn on those arguments is fnOutcome (ok means fn
returned normally, error means fn threw the carried value).  The result is
the outcome of the wrapped call: on a throw, an onThrow handler is applied
when supplied; otherwise a thrown Error instance is returned as the Err
unchanged; otherwise the thrown value is interpolated into the template
literal with prefix caught thrown value, which applies ToString to it.
ToString throws a TypeError on symbols, in which case the wrapped call
itself throws (outer error).  The revision of encase in src/Result.ts lines
255-266 is the special case where onThrow is mandatory.
-/
def encase (fnOutcome : Except JSValue JSValue) (onThrow : Option (JSValue → JSValue)) :
    Except JSValue JSValue :=
  match fnOutcome with
  | Except.ok v => Except.ok v
  | Except.error e =>
    match onThrow with
    | some handler => Except.ok (handler e)
    | none =>
      if isErr e then Except.ok e
      else
        match toStringJS e with
        | some s => Except.ok (err (String.append ("caught thrown value ") s))
        | none => Except.error symbolToStringTypeError

/--
Operation encasePromise from src/unnamed/part_015 lines 352-374.  A promise
settlement is modelled by Except: ok is fulfillment, error is rejection; p
is the settlement of the input promise and the result is the settlement of
the returned promise.  The branch structure mirrors encase, with the
template literal prefix caught rejected value; as in encase, interpolating a
symbol rejection reason throws a TypeError inside the async function body,
which rejects the returned promise.
-/
def encasePromise (p : Except JSValue JSValue) (onReject : Option (JSValue → JSValue)) :
    Except JSValue JSValue :=
  match p with
  | Except.ok v => Except.ok v
  | Except.error e =>
    match onReject with
    | some handler => Except.ok (handler e)
    | none =>
      if isErr e then Except.ok e
      else
        match toStringJS e with
        | some s => Except.ok (err (String.append ("caught rejected value ") s))
        | none => Except.error symbolToStringTypeError

/--
Operation assertOk from src/Result.ts lines 286-294: return x when x is an
Ok, otherwise throw x itself.  Throwing is modelled by the error side of
Except; the thrown value is the input value, not a copy.
-/
def assertOk (x : JSValue) : Except JSValue JSValue :=
  if isOk x then Except.ok x else Except.error x

/--
Operation orThrow from src/unnamed/part_015 lines 239-245: the later
revision of assertOk, with the identical body.
-/
def orThrow (x : JSValue) : Except JSValue JSValue :=
  if isOk x then Except.ok x else Except.error x

end Result

namespace AsyncData

/--
Constant NotAsked from src/AsyncData.ts: the unique NotAsked symbol sentinel.
-/
def NotAsked : JSValue := JSValue.notAskedSym

/--
Constant Loading from src/AsyncData.ts: the unique Loading symbol sentinel.
-/
def Loading : JSValue := JSValue.loadingSym

/--
Constructor Failure from src/AsyncData.ts lines 116-120 (first revision) and
src/unnamed/part_027 line 92: a new ErrorValue object carrying e.  The
ErrorValue class (src/unnamed/part_026) extends Error, sets name to
ErrorValue, a fixed message, and stores e in the value field.  Allocation
identity of new ErrorValue objects is modelled with id 0.
-/
def Failure (e : JSValue) : JSValue :=
  JSValue.errorValue 0 ("ErrorValue") ("This Error contains data in the \x27value\x27 field") e

/--
Typeguard isNotAsked from src/AsyncData.ts line 428 (line 127 in the first
revision): identity comparison against the NotAsked symbol.
-/
def isNotAsked (x : JSValue) : Bool :=
  match x with
  | JSValue.notAskedSym => true
  | _ => false

/--
Typeguard isLoading from src/AsyncData.ts line 431 (line 130 in the first
revision): identity comparison against the Loading symbol.
-/
def isLoading (x : JSValue) : Bool :=
  match x with
  | JSValue.loadingSym => true
  | _ => false

/--
Typeguard isFailure from src/AsyncData.ts lines 434-438: x instanceof Error.
-/
def isFailure (x : JSValue) : Bool := instanceofError x

/--
Typeguard isSuccess from src/AsyncData.ts lines 441-445: the residual case,
not NotAsked, not Loading and not a Failure.
-/
def isSuccess (x : JSValue) : Bool := !isNotAsked x && !isLoading x && !isFailure x

/--
Typeguard isCompleted from src/AsyncData.ts lines 448-454: not NotAsked and
not Loading.  (The first revision, line 140, computes it as isSuccess or
isFailure, which is pointwise the same function.)
-/
def isCompleted (x : JSValue) : Bool := !isNotAsked x && !isLoading x

/--
Conversion toResult from src/AsyncData.ts lines 498-499 (lines 209-210 in
the first revision): a completed value is returned unchanged as the Result,
and the incomplete statuses NotAsked and Loading map to Maybe.Nothing.
-/
def toResult (x : JSValue) : JSValue :=
  if isCompleted x then x else Maybe.Nothing

/--
State of a promise at a given instant: still pending, fulfilled with a
value, or rejected with a reason.  A promise settles at most once; after it
is fulfilled or rejected its state never changes again.
-/
inductive PromiseState : Type where
  | pending : PromiseState
  | fulfilled (v : JSValue) : PromiseState
  | rejected (e : JSValue) : PromiseState

/--
Input accepted by fromPromise (src/AsyncData.ts line 175): either a nullish
value (null or undefined), or a promise, described by its state at the
instant of the call.
-/
inductive PromiseInput : Type where
  | nullish : PromiseInput
  | prom (st : PromiseState) : PromiseInput

/--
Settlement of the expression Promise.race applied to the pair of the input
promise p and the fresh placeholder object (src/AsyncData.ts lines 181-182).
The placeholder is a plain object, hence an already-settled race entrant: if
p is still pending at the call, the placeholder wins; if p is already
fulfilled or rejected, the reaction of p is enqueued before the reaction of
the placeholder, so p wins with its value or reason.
-/
inductive RaceOutcome : Type where
  | placeholderWon : RaceOutcome
  | fulfilledWith (d : JSValue) : RaceOutcome
  | rejectedWith (e : JSValue) : RaceOutcome

/--
Outcome of the race between the input promise, in state st at call time, and
the placeholder object; see RaceOutcome.
-/
def race : PromiseState → RaceOutcome
  | PromiseState.pending => RaceOutcome.placeholderWon
  | PromiseState.fulfilled v => RaceOutcome.fulfilledWith v
  | PromiseState.rejected e => RaceOutcome.rejectedWith e

/--
Conversion fromPromise from src/AsyncData.ts lines 174-186 (identical in
src/unnamed/part_027 lines 126-138).  The result is the value with which the
returned promise fulfills: NotAsked for a nullish input; otherwise the race
of the input promise against the placeholder is observed, and the fulfill
handler maps the placeholder to Loading and a value d to Success d (the
value itself), while the reject handler maps a reason e to Failure e.  The
returned promise settles exactly once, with this value.
-/
def fromPromise : PromiseInput → JSValue
  | PromiseInput.nullish => NotAsked
  | PromiseInput.prom st =>
    match race st with
    | RaceOutcome.placeholderWon => Loading
    | RaceOutcome.fulfilledWith d => d
    | RaceOutcome.rejectedWith e => Failure e

/--
Timeline of the underlying promise: its state at each instant.
-/
def Timeline : Type := Nat → PromiseState

/--
Well-formedness of a timeline: a promise settles at most once, so a state
other than pending persists forever.
-/
def Timeline.settlesOnce (tl : Timeline) : Prop :=
  ∀ t u : Nat, t ≤ u → tl t ≠ PromiseState.pending → tl u = tl t

/--
Concrete timeline of a promise that is pending at instant 0 and fulfilled
with the number 42 from instant 1 on.
-/
def pendingThenFulfilled : Timeline :=
  fun t => if t = 0 then PromiseState.pending else PromiseState.fulfilled (JSValue.number 42)

end AsyncData

/--
Sanity fact: the concrete timeline pendingThenFulfilled is a well-formed
promise timeline, settling exactly once.
-/
theorem pendingThenFulfilled_settlesOnce :
    AsyncData.Timeline.settlesOnce AsyncData.pendingThenFulfilled := by
  intro t u htu ht
  match t, u with
  | 0, u => exact absurd rfl ht
  | t + 1, u =>
    have hu : ¬(u = 0) := by omega
    simp [AsyncData.pendingThenFulfilled, hu]

-- Helper lemmas shared by the claim theorems below.

/--
Boolean complement of the Result typeguards: an Ok value is exactly a value
that is not an Err.
-/
theorem isErr_eq_false_of_isOk {x : JSValue} (h : Result.isOk x = true) :
    Result.isErr x = false := by
  unfold Result.isOk at h
  unfold Result.isErr
  simpa using h

/--
Finding the first Err: in a list that starts with Ok values, then has an Err
element e, the search for the first Err returns e.
-/
theorem find_first_err (pre : List JSValue) (e : JSValue) (post : List JSValue)
    (hpre : ∀ x ∈ pre, Result.isErr x = false) (he : Result.isErr e = true) :
    (pre ++ e :: post).find? Result.isErr = some e := by
  induction pre with
  | nil => simp [List.find?, he]
  | cons y ys ih =>
    have hy : Result.isErr y = false := hpre y (by simp)
    rw [List.cons_append, List.find?_cons_of_neg _ (by simp [hy])]
    exact ih (fun x hx => hpre x (by simp [hx]))

/--
A list all of whose elements are Ok contains no Err, so the search for the
first Err comes up empty.
-/
theorem find_err_none_of_all_ok {xs : List JSValue}
    (h : ∀ x ∈ xs, Result.isOk x = true) : xs.find? Result.isErr = none := by
  rw [List.find?_eq_none]
  intro x hx
  simp [isErr_eq_false_of_isOk (h x hx)]

/--
Filtering a list by the Ok typeguard keeps every element when all elements
are Ok.
-/
theorem filter_ok_of_all_ok {xs : List JSValue}
    (h : ∀ x ∈ xs, Result.isOk x = true) : xs.filter Result.isOk = xs := by
  induction xs with
  | nil => rfl
  | cons y ys ih =>
    rw [List.filter_cons_of_pos (by simp [h y (by simp)])]
    rw [ih (fun x hx => h x (by simp [hx]))]

/--
Claim C1: round trip of the zero-cost cast between Result and AsyncData.
For every completed Result value r (a value of the Result family is never
one of the NotAsked and Loading sentinels, per the documented domain of the
family, and completed means exactly that), Result.toAsyncData returns r
itself with no copy or transformation, and AsyncData.toResult applied to
that same value returns r again unchanged.
-/
theorem result_toAsyncData_toResult_roundtrip (r : JSValue)
    (hc : AsyncData.isCompleted r = true) :
    Result.toAsyncData r = r ∧ AsyncData.toResult (Result.toAsyncData r) = r := by
  refine ⟨rfl, ?_⟩
  simp [Result.toAsyncData, AsyncData.toResult, hc]

/--
Witness for claim C1 at the concrete Ok value 3 and at a concrete Err
object.
-/
theorem result_toAsyncData_toResult_roundtrip_witness :
    AsyncData.toResult (Result.toAsyncData (JSValue.number 3)) = JSValue.number 3
    ∧ AsyncData.toResult (Result.toAsyncData (JSValue.error 1 ("Error") ("boom")))
        = JSValue.error 1 ("Error") ("boom") :=
  ⟨(result_toAsyncData_toResult_roundtrip (JSValue.number 3) rfl).2,
   (result_toAsyncData_toResult_roundtrip (JSValue.error 1 ("Error") ("boom")) rfl).2⟩

/--
Claim C2: classification exhaustiveness and mutual exclusivity for the
AsyncData family.  For every runtime value x, exactly one of the predicates
isNotAsked, isLoading, isFailure and isSuccess returns true: the sum of the
four Boolean classification bits is always exactly one.
-/
theorem asyncData_classification_exactly_one (x : JSValue) :
    (AsyncData.isNotAsked x).toNat + (AsyncData.isLoading x).toNat
      + (AsyncData.isFailure x).toNat + (AsyncData.isSuccess x).toNat = 1 := by
  cases x <;> rfl

/--
Claim C9: the nullable round trip holds for every Maybe value that is not
the null value, and the hypothesis is necessary: toNullable sends a present
null payload to null, the very output it produces for Nothing, so the
nullable conversions conflate a present null with absence (the round trip
of null lands on Nothing, not on null).
-/
theorem maybe_nullable_roundtrip (x : JSValue) (h : x ≠ JSValue.null) :
    Maybe.fromNullable (Maybe.toNullable x) = x
    ∧ Maybe.toNullable JSValue.null = Maybe.toNullable Maybe.Nothing
    ∧ Maybe.fromNullable (Maybe.toNullable JSValue.null) ≠ JSValue.null := by
  refine ⟨?_, rfl, fun hc => JSValue.noConfusion hc⟩
  cases x <;> first | rfl | exact absurd rfl h

/--
Witness for claim C9 at the concrete present value 0 (falsy but non-null)
and at Nothing.
-/
theorem maybe_nullable_roundtrip_witness :
    Maybe.fromNullable (Maybe.toNullable (JSValue.number 0)) = JSValue.number 0
    ∧ Maybe.fromNullable (Maybe.toNullable Maybe.Nothing) = Maybe.Nothing :=
  ⟨(maybe_nullable_roundtrip (JSValue.number 0) (by simp)).1,
   (maybe_nullable_roundtrip Maybe.Nothing (by simp [Maybe.Nothing])).1⟩

/--
Claim C10: assertOk (orThrow in the later revision) returns its argument
unchanged when it is an Ok, and when it is an Err it throws exactly that
same Err object as the exception, the input value itself and not a copy or
a newly constructed error; orThrow is pointwise the same function.
-/
theorem result_assertOk_identity (x : JSValue) :
    (Result.isOk x = true → Result.assertOk x = Except.ok x)
    ∧ (Result.isErr x = true → Result.assertOk x = Except.error x)
    ∧ Result.orThrow x = Result.assertOk x := by
  refine ⟨fun h => by simp [Result.assertOk, h], fun h => ?_, rfl⟩
  have hok : Result.isOk x = false := by
    unfold Result.isOk
    unfold Result.isErr at h
    simp [h]
  simp [Result.assertOk, hok]

/--
Witness for claim C10 at a concrete Ok value and at a concrete Err object
(whose allocation identity, id 7, is preserved by the throw).
-/
theorem result_assertOk_identity_witness :
    Result.assertOk (JSValue.number 9) = Except.ok (JSValue.number 9)
    ∧ Result.assertOk (JSValue.error 7 ("Error") ("kaput"))
        = Except.error (JSValue.error 7 ("Error") ("kaput")) :=
  ⟨(result_assertOk_identity (JSValue.number 9)).1 rfl,
   (result_assertOk_identity (JSValue.error 7 ("Error") ("kaput"))).2.1 rfl⟩

/--
Claim C4: first-error policy of combine (consolidate in the part_015
revision).  For every array xs of Result values: when every element is an
Ok, the result is the array of the values themselves (an Ok, since an array
is not an Error instance); when some element is an Err, the result is an
Err, namely the first Err of xs in left-to-right order, so all later Errs
are discarded; and consolidate computes the same function as combine.
-/
theorem result_combine_first_error (xs pre post : List JSValue) (e : JSValue) :
    ((∀ x ∈ xs, Result.isOk x = true) →
      Result.combine xs = JSValue.array xs ∧ Result.isOk (JSValue.array xs) = true)
    ∧ ((∃ x ∈ xs, Result.isErr x = true) → Result.isErr (Result.combine xs) = true)
    ∧ (xs = pre ++ e :: post → (∀ x ∈ pre, Result.isOk x = true) →
        Result.isErr e = true → Result.combine xs = e)
    ∧ Result.consolidate xs = Result.combine xs := by
  refine ⟨fun h => ?_, fun h => ?_, fun hxs hpre he => ?_, rfl⟩
  · rw [Result.combine, find_err_none_of_all_ok h, filter_ok_of_all_ok h]
    exact ⟨rfl, rfl⟩
  · have hs : (xs.find? Result.isErr).isSome = true := by
      rw [List.find?_isSome]
      obtain ⟨x, hx, hxe⟩ := h
      exact ⟨x, hx, by simp [hxe]⟩
    obtain ⟨y, hy⟩ := Option.isSome_iff_exists.mp hs
    rw [Result.combine, hy]
    exact List.find?_some hy
  · subst hxs
    rw [Result.combine,
      find_first_err pre e post (fun x hx => isErr_eq_false_of_isOk (hpre x hx)) he]

/--
Witness for claim C4 at the concrete inputs from the specification: the
mixed array returns the Err tagged a (allocation id 1), not the later Err
tagged b, and the all-Ok array returns the array of values.
-/
theorem result_combine_first_error_witness :
    Result.combine
        [JSValue.number 1, JSValue.error 1 ("Error") ("a"),
          JSValue.number 2, JSValue.error 2 ("Error") ("b")]
      = JSValue.error 1 ("Error") ("a")
    ∧ Result.combine [JSValue.number 1, JSValue.number 2]
        = JSValue.array [JSValue.number 1, JSValue.number 2] := by
  constructor
  · exact (result_combine_first_error
      [JSValue.number 1, JSValue.error 1 ("Error") ("a"),
        JSValue.number 2, JSValue.error 2 ("Error") ("b")]
      [JSValue.number 1] [JSValue.number 2, JSValue.error 2 ("Error") ("b")]
      (JSValue.error 1 ("Error") ("a"))).2.2.1 rfl (by decide) rfl
  · exact ((result_combine_first_error [JSValue.number 1, JSValue.number 2]
      [] [] JSValue.undef).1 (by decide)).1

/--
Claim C6: incompletion is not an error under conversion.  AsyncData.toResult
maps both NotAsked and Loading to Maybe.Nothing, which the Result family
classifies as an Ok; Success values pass through unchanged and are Ok;
Failure values pass through unchanged and are Err.
-/
theorem asyncData_toResult_incomplete_is_ok :
    AsyncData.toResult AsyncData.NotAsked = Maybe.Nothing
    ∧ Result.isOk (AsyncData.toResult AsyncData.NotAsked) = true
    ∧ AsyncData.toResult AsyncData.Loading = Maybe.Nothing
    ∧ Result.isOk (AsyncData.toResult AsyncData.Loading) = true
    ∧ (∀ x : JSValue, AsyncData.isSuccess x = true →
        AsyncData.toResult x = x ∧ Result.isOk x = true)
    ∧ (∀ x : JSValue, AsyncData.isFailure x = true →
        AsyncData.toResult x = x ∧ Result.isErr x = true) := by
  refine ⟨rfl, rfl, rfl, rfl, fun x hx => ?_, fun x hx => ?_⟩
  · rw [AsyncData.isSuccess, Bool.and_eq_true, Bool.and_eq_true] at hx
    obtain ⟨⟨hna, hl⟩, hf⟩ := hx
    rw [Bool.not_eq_true'] at hna hl hf
    have hof : instanceofError x = false := hf
    refine ⟨?_, by simp [Result.isOk, hof]⟩
    simp [AsyncData.toResult, AsyncData.isCompleted, hna, hl]
  · have hof : instanceofError x = true := hx
    have hna : AsyncData.isNotAsked x = false := by
      cases x <;> first | rfl | exact absurd hof (by simp [instanceofError])
    have hl : AsyncData.isLoading x = false := by
      cases x <;> first | rfl | exact absurd hof (by simp [instanceofError])
    refine ⟨?_, hof⟩
    simp [AsyncData.toResult, AsyncData.isCompleted, hna, hl]

/--
Witness for claim C6 at a concrete Success value and a concrete Failure
object (the sentinel cases in the theorem are already closed statements).
-/
theorem asyncData_toResult_incomplete_is_ok_witness :
    AsyncData.toResult (JSValue.number 5) = JSValue.number 5
    ∧ AsyncData.toResult (JSValue.error 3 ("Error") ("bad"))
        = JSValue.error 3 ("Error") ("bad") :=
  ⟨(asyncData_toResult_incomplete_is_ok.2.2.2.2.1 (JSValue.number 5) rfl).1,
   (asyncData_toResult_incomplete_is_ok.2.2.2.2.2 (JSValue.error 3 ("Error") ("bad")) rfl).1⟩

/--
Claim C7: map short-circuit on the absent branch.  For every user function
fn, over any effect monad, mapping fn over Nothing is the pure computation
returning Nothing: no effect of fn is performed, so fn is never invoked; and
when the argument is present, the map is exactly the single invocation of fn
on it, so fn is invoked exactly when the argument is a Just.
-/
theorem maybe_map_short_circuit {m : Type → Type} [Monad m]
    (fn : JSValue → m JSValue) (a : JSValue) :
    Maybe.map fn Maybe.Nothing = (pure Maybe.Nothing : m JSValue)
    ∧ (Maybe.isJust a = true → Maybe.map fn a = fn a) := by
  refine ⟨rfl, fun h => ?_⟩
  simp [Maybe.map, h]

/--
Callback used by the witness of claim C7: an effectful function in the
state monad that increments a counter every time it is invoked and returns
its argument.
-/
def countingCallback : JSValue → StateM Nat JSValue := fun v n => (v, n + 1)

/--
Witness for claim C7 with the concrete effectful callback countingCallback:
mapping it over Nothing leaves the counter at 0, mapping it over the present
value 5 equals the one invocation, incrementing the counter to 1.
-/
theorem maybe_map_short_circuit_witness :
    (Maybe.map countingCallback Maybe.Nothing).run 0 = (Maybe.Nothing, 0)
    ∧ (Maybe.map countingCallback (JSValue.number 5)).run 0 = (JSValue.number 5, 1) := by
  constructor
  · rw [(maybe_map_short_circuit countingCallback (JSValue.number 5)).1]
    rfl
  · rw [(maybe_map_short_circuit countingCallback (JSValue.number 5)).2 rfl]
    rfl

/--
Counterexample to claim C3 as stated.  The claim quantifies over every
thrown value: with no handler and a thrown value that is not an Error
instance, it asserts that a fresh generic Err is returned whose message
embeds a string form of the thrown value.  For a thrown symbol (here the
NotAsked symbol; any symbol behaves the same) there is no such string form:
template literal interpolation applies ToString, which throws a TypeError
on symbols, so the wrapped call returns no Err at all, it throws.
-/
theorem result_encase_symbol_counterexample :
    Result.encase (Except.error JSValue.notAskedSym) none
      = Except.error symbolToStringTypeError
    ∧ (Result.encase (Except.error JSValue.notAskedSym) none).isOk = false :=
  ⟨rfl, rfl⟩

/--
Claim C3, amended: three-tier exception policy of Result.encase, with the
synthesize tier restricted to thrown values that admit a string form (are
not symbols).  When fn returns normally, its result is returned as an Ok.
When fn throws: a supplied onThrow handler produces the result verbatim;
with no handler, a thrown Error instance is returned unchanged as the Err;
otherwise, for a thrown value whose ToString succeeds, a fresh generic
Error is returned whose message embeds that string form after the words
caught thrown value.
-/
theorem result_encase_three_tier (v e : JSValue) (handler : JSValue → JSValue)
    (o : Option (JSValue → JSValue)) (s : String) :
    Result.encase (Except.ok v) o = Except.ok v
    ∧ Result.encase (Except.error e) (some handler) = Except.ok (handler e)
    ∧ (Result.isErr e = true → Result.encase (Except.error e) none = Except.ok e)
    ∧ (Result.isErr e = false → toStringJS e = some s →
        Result.encase (Except.error e) none
          = Except.ok (Result.err (String.append ("caught thrown value ") s))) := by
  refine ⟨rfl, rfl, fun h => ?_, fun h hs => ?_⟩
  · simp [Result.encase, h]
  · simp [Result.encase, h, hs]

/--
Witness for the amended claim C3: a normal return passes through as Ok; an
explicit handler's return value is used verbatim; a thrown Err-family
object (allocation id 5) is returned unchanged; a thrown plain string oops
is embedded into the message of a fresh generic Error.
-/
theorem result_encase_three_tier_witness :
    Result.encase (Except.ok (JSValue.number 7)) none = Except.ok (JSValue.number 7)
    ∧ Result.encase (Except.error (JSValue.string ("oops"))) (some (fun _ => JSValue.number 3))
        = Except.ok (JSValue.number 3)
    ∧ Result.encase (Except.error (JSValue.error 5 ("Error") ("boom"))) none
        = Except.ok (JSValue.error 5 ("Error") ("boom"))
    ∧ Result.encase (Except.error (JSValue.string ("oops"))) none
        = Except.ok (Result.err (String.append ("caught thrown value ") ("oops"))) :=
  ⟨(result_encase_three_tier (JSValue.number 7) JSValue.undef (fun x => x) none ("")).1,
   (result_encase_three_tier JSValue.undef (JSValue.string ("oops"))
     (fun _ => JSValue.number 3) none ("")).2.1,
   (result_encase_three_tier JSValue.undef (JSValue.error 5 ("Error") ("boom"))
     (fun x => x) none ("")).2.2.1 rfl,
   (result_encase_three_tier JSValue.undef (JSValue.string ("oops"))
     (fun x => x) none ("oops")).2.2.2 rfl rfl⟩

/--
Counterexample to claim C8 as stated.  The claim asserts that for every
input promise the returned promise always fulfills.  For the Result-family
encasePromise with no handler and a rejection reason that is a symbol (here
the NotAsked symbol; any symbol behaves the same), the template literal
interpolation of the reason throws a TypeError inside the async function
body, so the returned promise rejects instead of fulfilling.
-/
theorem result_encasePromise_symbol_counterexample :
    Result.encasePromise (Except.error JSValue.notAskedSym) none
      = Except.error symbolToStringTypeError
    ∧ (Result.encasePromise (Except.error JSValue.notAskedSym) none).isOk = false :=
  ⟨rfl, rfl⟩

/--
Claim C8, amended: the promise adapters never reject, except that the
Result-family adapter with no handler rejects when the rejection reason is
a symbol (no string form).  The Maybe-family encasePromise always fulfills:
with the fulfillment value on success and with Nothing on any rejection.
The Result-family encasePromise fulfills with the value on success; on
rejection it fulfills with the handler result when a handler is supplied,
with the reason itself when the reason is an Error instance, and otherwise,
for a reason whose ToString succeeds, with a fresh generic Error whose
message contains that string form after the words caught rejected value.
-/
theorem encasePromise_never_rejects (v e : JSValue) (handler : JSValue → JSValue)
    (o : Option (JSValue → JSValue)) (s : String) :
    Maybe.encasePromise (Except.ok v) = Except.ok v
    ∧ Maybe.encasePromise (Except.error e) = Except.ok Maybe.Nothing
    ∧ Result.encasePromise (Except.ok v) o = Except.ok v
    ∧ Result.encasePromise (Except.error e) (some handler) = Except.ok (handler e)
    ∧ (Result.isErr e = true → Result.encasePromise (Except.error e) none = Except.ok e)
    ∧ (Result.isErr e = false → toStringJS e = some s →
        Result.encasePromise (Except.error e) none
          = Except.ok (Result.err (String.append ("caught rejected value ") s))) := by
  refine ⟨rfl, rfl, rfl, rfl, fun h => ?_, fun h hs => ?_⟩
  · simp [Result.encasePromise, h]
  · simp [Result.encasePromise, h, hs]

/--
Witness for the amended claim C8 at the concrete rejection reason from the
specification, the plain string network down: the Maybe adapter fulfills
with Nothing, and the Result adapter with no handler fulfills with an Error
whose message contains the string network down.
-/
theorem encasePromise_never_rejects_witness :
    Maybe.encasePromise (Except.error (JSValue.string ("network down")))
      = Except.ok Maybe.Nothing
    ∧ Result.encasePromise (Except.error (JSValue.string ("network down"))) none
        = Except.ok (Result.err (String.append ("caught rejected value ") ("network down"))) :=
  ⟨(encasePromise_never_rejects JSValue.undef (JSValue.string ("network down"))
      (fun x => x) none ("")).2.1,
   (encasePromise_never_rejects JSValue.undef (JSValue.string ("network down"))
      (fun x => x) none ("network down")).2.2.2.2.2 rfl rfl⟩

/--
Counterexample to claim C5 as stated.  The claim asserts that the value
produced by fromPromise for a pending input immediately reports Loading and
then settles to Succeeded or Failed once the underlying promise resolves.
On the concrete timeline pendingThenFulfilled (pending at instant 0,
fulfilled with 42 from instant 1 on), the promise returned by the call made
at instant 0 fulfills with Loading, and that single settlement is not a
completed state and never changes, even though the underlying promise is
fulfilled at instant 1: a promise settles exactly once, so the produced
value never transitions to Success or Failure.
-/
theorem asyncData_fromPromise_pending_counterexample :
    AsyncData.fromPromise (AsyncData.PromiseInput.prom (AsyncData.pendingThenFulfilled 0))
      = AsyncData.Loading
    ∧ AsyncData.pendingThenFulfilled 1 = AsyncData.PromiseState.fulfilled (JSValue.number 42)
    ∧ AsyncData.isCompleted
        (AsyncData.fromPromise (AsyncData.PromiseInput.prom (AsyncData.pendingThenFulfilled 0)))
      = false :=
  ⟨rfl, rfl, rfl⟩

/--
Claim C5, amended: fromPromise reports a snapshot of the input promise's
lifecycle stage at call time.  On any timeline of the underlying promise, a
call made while the promise is pending returns a promise that immediately
fulfills with Loading (so any synchronous observer of the settled value
sees the InProgress state); a call made after the promise has fulfilled
with v yields v itself (Success v); a call made after it has rejected with
e yields Failure e; and a nullish input yields NotAsked.  Each returned
promise settles exactly once with its snapshot and does not transition
afterwards; observing the completed state requires a fresh call after the
underlying promise has settled.
-/
theorem asyncData_fromPromise_snapshot (tl : AsyncData.Timeline) (t u : Nat)
    (v e : JSValue) :
    (tl t = AsyncData.PromiseState.pending →
      AsyncData.fromPromise (AsyncData.PromiseInput.prom (tl t)) = AsyncData.Loading
      ∧ AsyncData.isLoading (AsyncData.fromPromise (AsyncData.PromiseInput.prom (tl t))) = true)
    ∧ (tl u = AsyncData.PromiseState.fulfilled v →
        AsyncData.fromPromise (AsyncData.PromiseInput.prom (tl u)) = v)
    ∧ (tl u = AsyncData.PromiseState.rejected e →
        AsyncData.fromPromise (AsyncData.PromiseInput.prom (tl u)) = AsyncData.Failure e
        ∧ AsyncData.isFailure
            (AsyncData.fromPromise (AsyncData.PromiseInput.prom (tl u))) = true)
    ∧ AsyncData.fromPromise AsyncData.PromiseInput.nullish = AsyncData.NotAsked := by
  refine ⟨fun h => ?_, fun h => ?_, fun h => ?_, rfl⟩
  · rw [h]
    exact ⟨rfl, rfl⟩
  · rw [h]
    rfl
  · rw [h]
    exact ⟨rfl, rfl⟩

/--
Witness for the amended claim C5 on the concrete timeline
pendingThenFulfilled: the call at instant 0 (input pending) yields Loading
and the call at instant 1 (input fulfilled with 42) yields the value 42.
-/
theorem asyncData_fromPromise_snapshot_witness :
    AsyncData.fromPromise (AsyncData.PromiseInput.prom (AsyncData.pendingThenFulfilled 0))
      = AsyncData.Loading
    ∧ AsyncData.fromPromise (AsyncData.PromiseInput.prom (AsyncData.pendingThenFulfilled 1))
      = JSValue.number 42 :=
  ⟨((asyncData_fromPromise_snapshot AsyncData.pendingThenFulfilled 0 1
      (JSValue.number 42) JSValue.undef).1 rfl).1,
   (asyncData_fromPromise_snapshot AsyncData.pendingThenFulfilled 0 1
      (JSValue.number 42) JSValue.undef).2.1 rfl⟩
